import Mathlib

/-!
Verification of the Tharnax installation lifecycle orchestrator.

This file gives a shallow embedding, in Lean 4, of the orchestrator code in
`tharnax-web/backend/app/routers/install.py` and
`tharnax-web/backend/app/services/installer.py`, and proves (or refutes)
the frozen claims about it.

Modelling conventions:
- The in-memory status dictionary `installation_status` is modelled as an
  association list `StatusTable` with Python-dict lookup/overwrite semantics.
- Cluster probes (`list_namespaced_pod`, `list_namespace`,
  `list_namespaced_deployment`, ...) and the deployer results are passed in
  as explicit `Except`-valued observations: `.error` models the call raising
  an exception, `.ok` a successful observation.
- Python float arithmetic on progress values
  (`int(max(15 + min((r / 8) * 70, 70), stored))` and the like) is modelled
  with exact natural-number arithmetic: for the divisors that occur here
  (8 and 1) the float computations are exact and `int` truncation agrees
  with natural division, e.g. `int((r / 8) * 70) = r * 70 / 8`.
- Each background wrapper (`install_component_with_status`, ...) is modelled
  as one function from the pre-state table and the sequence of observations
  made by its polling loop to the post-state table.  Its `try/except`
  handler is total by construction: the function returns a table, never an
  exception, mirroring the fact that the Python wrapper never re-raises.
-/

namespace Tharnax

/-- A pod observation: `phase` from `pod.status.phase`, one Bool per entry of
`pod.status.container_statuses` (`container.ready`), and `metadata.uid`. -/
structure Pod where
  phase : String
  containersReady : List Bool
  uid : String
deriving DecidableEq, Repr

/-- `pod.status.phase == "Running"` (the filter used by the restart endpoint). -/
def podIsRunning (p : Pod) : Bool := p.phase == "Running"

/-- `pod.status.phase == "Running" and all(container.ready for container in
(pod.status.container_statuses or []))` (the filter used everywhere else).
A pod without container statuses counts as ready, as `all([])` is `True`. -/
def podIsReady (p : Pod) : Bool := p.phase == "Running" && p.containersReady.all (fun b => b)

/-- Number of pods passing the phase-only filter of the restart endpoint. -/
def runningCount (pods : List Pod) : Nat := (pods.filter podIsRunning).length

/-- Number of ready pods (`len(running_pods)` in the progress computations). -/
def readyCount (pods : List Pod) : Nat := (pods.filter podIsReady).length

/-- One entry of `APP_REGISTRY` in `services/installer.py`. -/
structure AppConfig where
  name : String
  can_uninstall : Bool
  helm_release : String
  nspace : String
  argocd_app : Option String
deriving DecidableEq, Repr

/-- `APP_REGISTRY` from `services/installer.py`. -/
def APP_REGISTRY : List (String × AppConfig) :=
  [("monitoring", ⟨"Monitoring Stack", true, "monitoring-stack", "monitoring", some "monitoring-stack"⟩),
   ("argocd", ⟨"ArgoCD", false, "argocd", "argocd", none⟩),
   ("jellyfin", ⟨"Jellyfin", true, "jellyfin", "jellyfin", some "jellyfin"⟩),
   ("sonarr", ⟨"Sonarr", true, "sonarr", "sonarr", some "sonarr"⟩)]

/-- `get_app_config`: `APP_REGISTRY.get(component)`. -/
def get_app_config (component : String) : Option AppConfig :=
  (APP_REGISTRY.find? (fun p => p.1 == component)).map (fun p => p.2)

/-- `can_uninstall_component`: false when the component is unknown, else the
registry flag (every registry entry carries the key explicitly). -/
def can_uninstall_component (component : String) : Bool :=
  match get_app_config component with
  | none => false
  | some cfg => cfg.can_uninstall

/-- `VALID_COMPONENTS` from `routers/install.py`. -/
def VALID_COMPONENTS : List String :=
  ["jellyfin", "sonarr", "prometheus", "grafana", "monitoring", "argocd"]

/-- One value of the `installation_status` dictionary. -/
structure StatusEntry where
  status : String
  progress : Nat
  message : String
  started_at : String
  component : String
deriving DecidableEq, Repr

/-- The `installation_status` dictionary, as an association list. -/
abbrev StatusTable := List (String × StatusEntry)

/-- Dictionary lookup `installation_status.get(c)`. -/
def lookupStatus : StatusTable → String → Option StatusEntry
  | [], _ => none
  | (k, v) :: rest, c => if k = c then some v else lookupStatus rest c

/-- Dictionary overwrite `installation_status[c] = e`. -/
def setStatus : StatusTable → String → StatusEntry → StatusTable
  | [], c, e => [(c, e)]
  | (k, v) :: rest, c, e => if k = c then (c, e) :: rest else (k, v) :: setStatus rest c e

/-- Field update `installation_status[c][...] = ...`; a no-op when the key is
absent (in the code the key always exists when these updates run, because the
endpoint creates the entry before scheduling the task and entries are never
deleted). -/
def updateEntry (t : StatusTable) (c : String) (f : StatusEntry → StatusEntry) : StatusTable :=
  match lookupStatus t c with
  | none => t
  | some e => setStatus t c (f e)

theorem lookupStatus_setStatus_self (t : StatusTable) (c : String) (e : StatusEntry) :
    lookupStatus (setStatus t c e) c = some e := by
  induction t with
  | nil => simp [setStatus, lookupStatus]
  | cons hd tl ih =>
    obtain ⟨k, v⟩ := hd
    by_cases h : k = c
    · simp [setStatus, h, lookupStatus]
    · simp [setStatus, h, lookupStatus, ih]

theorem lookupStatus_setStatus_other (t : StatusTable) (c c' : String) (e : StatusEntry)
    (h : c' ≠ c) : lookupStatus (setStatus t c e) c' = lookupStatus t c' := by
  have hcc : ¬ (c = c') := fun hh => h hh.symm
  induction t with
  | nil => simp [setStatus, lookupStatus, hcc]
  | cons hd tl ih =>
    obtain ⟨k, v⟩ := hd
    by_cases hk : k = c
    · subst hk
      simp [setStatus, lookupStatus, hcc]
    · simp only [setStatus, if_neg hk, lookupStatus]
      by_cases hk' : k = c'
      · simp [hk']
      · simp [hk', ih]

theorem lookupStatus_updateEntry_self (t : StatusTable) (c : String) (f : StatusEntry → StatusEntry) :
    lookupStatus (updateEntry t c f) c = (lookupStatus t c).map f := by
  unfold updateEntry
  cases h : lookupStatus t c with
  | none => simp [h]
  | some e => simp [lookupStatus_setStatus_self]

theorem lookupStatus_updateEntry_other (t : StatusTable) (c c' : String)
    (f : StatusEntry → StatusEntry) (h : c' ≠ c) :
    lookupStatus (updateEntry t c f) c' = lookupStatus t c' := by
  unfold updateEntry
  cases lookupStatus t c with
  | none => rfl
  | some e => exact lookupStatus_setStatus_other _ _ _ _ h

/-- Body of the JSON responses of the three mutating endpoints. -/
structure ApiResponse where
  status : String
  message : String
  component : String
  progress : Option Nat
deriving DecidableEq, Repr

/-- Either a normal JSON body or a raised `HTTPException(code, detail)`. -/
inductive HandlerResult (α : Type) where
  | ok : α → HandlerResult α
  | httpError : Nat → String → HandlerResult α
deriving DecidableEq, Repr

/-- Result of one mutating endpoint call: the response, the status table after
the call, and whether a background task was scheduled. -/
structure EndpointOutcome where
  response : HandlerResult ApiResponse
  table : StatusTable
  scheduled : Bool
deriving DecidableEq, Repr

/-- A kubernetes `ApiException` carrying the HTTP status code. -/
structure ApiError where
  status : Nat
deriving DecidableEq, Repr

/-- The Python guard `status in ["installing", "uninstalling", "restarting"]`. -/
abbrev isProcessingStatus (s : String) : Prop :=
  s = "installing" ∨ s = "uninstalling" ∨ s = "restarting"

/-- `component in installation_status and installation_status[component]["status"]
in ["installing", "uninstalling", "restarting"]`. -/
def isProcessing (t : StatusTable) (c : String) : Bool :=
  match lookupStatus t c with
  | some e => decide (isProcessingStatus e.status)
  | none => false

/-- `component in installation_status and installation_status[component]["status"]
== "installing"` (the weaker guard of the install endpoint). -/
def isInstalling (t : StatusTable) (c : String) : Bool :=
  match lookupStatus t c with
  | some e => e.status == "installing"
  | none => false

/-- `POST /install/component` (`install_app` in `routers/install.py`).
`now` stands for `datetime.now().isoformat()`. -/
def install_app (t : StatusTable) (component : String) (now : String) : EndpointOutcome :=
  if component ∉ VALID_COMPONENTS then
    ⟨.httpError 404 ("Component " ++ component ++ " not found"), t, false⟩
  else if isInstalling t component then
    ⟨.ok ⟨"already_installing", "Installation of " ++ component ++ " is already in progress",
      component, none⟩, t, false⟩
  else
    ⟨.ok ⟨"started", "Installation of " ++ component ++ " started", component, some 0⟩,
      setStatus t component
        ⟨"installing", 0, "Starting installation of " ++ component, now, component⟩,
      true⟩

/-- `DELETE /install/component` (`uninstall_app` in `routers/install.py`). -/
def uninstall_app (t : StatusTable) (component : String) (now : String) : EndpointOutcome :=
  if component ∉ VALID_COMPONENTS then
    ⟨.httpError 404 ("Component " ++ component ++ " not found"), t, false⟩
  else if can_uninstall_component component = false then
    ⟨.httpError 403
      ((match get_app_config component with
        | some cfg => cfg.name
        | none => component) ++
        " cannot be uninstalled as it is a protected system component"), t, false⟩
  else if isProcessing t component then
    ⟨.ok ⟨"already_processing", component ++ " is already being processed", component, none⟩,
      t, false⟩
  else
    ⟨.ok ⟨"started", "Uninstallation of " ++ component ++ " started", component, some 0⟩,
      setStatus t component
        ⟨"uninstalling", 0, "Starting uninstallation of " ++ component, now, component⟩,
      true⟩

/-- `POST /install/component/restart` (`restart_app` in `routers/install.py`).
`podsObs` is the outcome of `k8s_client.list_namespaced_pod(namespace)`:
`.error` models a raised `ApiException`. -/
def restart_app (t : StatusTable) (component : String)
    (podsObs : Except ApiError (List Pod)) (now : String) : EndpointOutcome :=
  if component ∉ VALID_COMPONENTS then
    ⟨.httpError 404 ("Component " ++ component ++ " not found"), t, false⟩
  else if can_uninstall_component component = false then
    ⟨.httpError 403
      ((match get_app_config component with
        | some cfg => cfg.name
        | none => component) ++
        " cannot be restarted as it is a protected system component"), t, false⟩
  else
    match podsObs with
    | .error e =>
      if e.status = 404 then
        ⟨.httpError 400 (component ++ " is not installed - cannot restart"), t, false⟩
      else
        ⟨.httpError 500 ("Error checking " ++ component ++ " status"), t, false⟩
    | .ok pods =>
      if pods.isEmpty then
        ⟨.httpError 400 (component ++ " is not installed - cannot restart"), t, false⟩
      else if runningCount pods = 0 then
        ⟨.httpError 400 (component ++ " has no running pods - cannot restart"), t, false⟩
      else if isProcessing t component then
        ⟨.ok ⟨"already_processing", component ++ " is already being processed", component, none⟩,
          t, false⟩
      else
        ⟨.ok ⟨"started", "Rollout restart of " ++ component ++ " started", component, some 0⟩,
          setStatus t component
            ⟨"restarting", 0, "Starting rollout restart of " ++ component, now, component⟩,
          true⟩

/-- Body of a `GET /install/component/status` response.  The Python handler
returns ad-hoc dicts; optional fields model keys that some branches omit. -/
structure StatusResponse where
  status : String
  progress : Nat
  message : String
  pods_running : Option Nat
  total_pods : Option Nat
  component : Option String
  started_at : Option String
deriving DecidableEq, Repr

/-- `return status_info`: the stored entry returned as-is (all keys present). -/
def entryToResponse (e : StatusEntry) : StatusResponse :=
  ⟨e.status, e.progress, e.message, none, none, some e.component, some e.started_at⟩

/-- `{"component": c, "status": "not_installed", "progress": 0, ...}`. -/
def notInstalledResponse (c : String) : StatusResponse :=
  ⟨"not_installed", 0, c ++ " is not installed", none, none, some c, none⟩

/-- Monitoring branch of `get_install_status` when a stored entry exists
(`routers/install.py` lines 580-685).  `podsObs` is the
`list_namespaced_pod("monitoring")` outcome; on `.error` the inner handler
falls back to the stored entry. -/
def monitoringStatusRead (e : StatusEntry) (podsObs : Except String (List Pod)) : StatusResponse :=
  match podsObs with
  | .error _ => entryToResponse e
  | .ok pods =>
    if pods.isEmpty = false then
      let running := readyCount pods
      let total := pods.length
      if e.status = "installing" then
        if total = 0 then
          -- dead branch in the source (`total_pods == 0` under `if pods.items`)
          ⟨"installing", max e.progress 15, e.message, some 0, some 0, none, none⟩
        else
          ⟨"installing", max (max e.progress 15) (15 + min (running * 70 / 8) 70),
            "Monitoring pods starting... " ++ toString running ++ "/" ++ toString total ++
              " pods ready",
            some running, some total, none, none⟩
      else if e.status = "completed" then
        if 6 ≤ running then  -- expected_pods * 0.75 = 8 * 0.75 = 6
          ⟨"completed", 100,
            "Monitoring stack deployed successfully! " ++ toString running ++ " pods running.",
            some running, some total, none, none⟩
        else
          ⟨"installing", 90 + running * 10 / 8,
            "Installation complete, pods starting... " ++ toString running ++ "/" ++
              toString total ++ " ready",
            some running, some total, none, none⟩
      else if e.status = "restarting" then
        if 0 < total then
          ⟨"restarting", max (max e.progress 20) (25 + min (running * 65 / 8) 65),
            "Restarting pods... " ++ toString running ++ "/" ++ toString total ++ " pods ready",
            some running, some total, none, none⟩
        else
          ⟨"restarting", max e.progress 20, e.message, some 0, some 0, none, none⟩
      else
        { entryToResponse e with pods_running := some running, total_pods := some total }
    else
      if e.status = "installing" then
        ⟨"installing", max e.progress 10, e.message, some 0, some 0, none, none⟩
      else entryToResponse e

/-- Monitoring branch of `get_install_status` when no stored entry exists
(lines 686-711); a probe failure hits the bare `except: pass`. -/
def monitoringNoStatusRead (podsObs : Except String (List Pod)) : StatusResponse :=
  match podsObs with
  | .error _ => notInstalledResponse "monitoring"
  | .ok pods =>
    if pods.isEmpty = false ∧ 3 ≤ readyCount pods then
      ⟨"installed", 100,
        "Monitoring stack is already installed (" ++ toString (readyCount pods) ++
          " pods running)",
        some (readyCount pods), some pods.length, some "monitoring", none⟩
    else notInstalledResponse "monitoring"

/-- Jellyfin branch of `get_install_status` when a stored entry exists
(lines 712-794).  Expected pod count is 1 and, unlike monitoring, there is no
`restarting` sub-branch; the completed check is `running >= expected_pods`. -/
def jellyfinStatusRead (e : StatusEntry) (podsObs : Except String (List Pod)) : StatusResponse :=
  match podsObs with
  | .error _ => entryToResponse e
  | .ok pods =>
    if pods.isEmpty = false then
      let running := readyCount pods
      let total := pods.length
      if e.status = "installing" then
        if total = 0 then
          ⟨"installing", max e.progress 15, e.message, some 0, some 0, none, none⟩
        else
          ⟨"installing", max (max e.progress 15) (15 + min (running * 70) 70),
            "Jellyfin pod starting... " ++ toString running ++ "/" ++ toString total ++
              " pods ready",
            some running, some total, none, none⟩
      else if e.status = "completed" then
        if 1 ≤ running then
          ⟨"completed", 100,
            "Jellyfin deployed successfully! " ++ toString running ++ " pods running.",
            some running, some total, none, none⟩
        else
          ⟨"installing", 90 + running * 10,
            "Installation complete, pod starting... " ++ toString running ++ "/" ++
              toString total ++ " ready",
            some running, some total, none, none⟩
      else
        { entryToResponse e with pods_running := some running, total_pods := some total }
    else
      if e.status = "installing" then
        ⟨"installing", max e.progress 10, e.message, some 0, some 0, none, none⟩
      else entryToResponse e

/-- Jellyfin branch of `get_install_status` when no stored entry exists
(lines 795-820). -/
def jellyfinNoStatusRead (podsObs : Except String (List Pod)) : StatusResponse :=
  match podsObs with
  | .error _ => notInstalledResponse "jellyfin"
  | .ok pods =>
    if pods.isEmpty = false ∧ 1 ≤ readyCount pods then
      ⟨"installed", 100,
        "Jellyfin is already installed (" ++ toString (readyCount pods) ++ " pods running)",
        some (readyCount pods), some pods.length, some "jellyfin", none⟩
    else notInstalledResponse "jellyfin"

/-- Generic branch of `get_install_status` when a stored entry exists
(lines 822-837).  `nsObs` is the `list_namespace()` outcome; a failure there is
caught only by the OUTER handler (lines 858-865), which replaces the stored
status by a synthesized error object. -/
def genericStatusRead (c : String) (e : StatusEntry)
    (nsObs : Except String (List String)) : StatusResponse :=
  if e.status = "completed" then
    match nsObs with
    | .error ex => ⟨"error", 0, "Error checking status: " ++ ex, none, none, some c, none⟩
    | .ok names =>
      if c ∈ names then entryToResponse e
      else
        { entryToResponse e with
            status := "error",
            message := "Installation reported complete but " ++ c ++ " not found" }
  else entryToResponse e

/-- Generic branch of `get_install_status` when no stored entry exists
(lines 838-857); again a probe failure reaches only the outer handler. -/
def genericNoStatusRead (c : String) (nsObs : Except String (List String)) : StatusResponse :=
  match nsObs with
  | .error ex => ⟨"error", 0, "Error checking status: " ++ ex, none, none, some c, none⟩
  | .ok names =>
    if c ∈ names then
      ⟨"installed", 100, c ++ " is already installed", none, none, some c, none⟩
    else notInstalledResponse c

/-- `GET /install/component/status` (`get_install_status` in
`routers/install.py`).  The read never writes `installation_status`: the
generic branch mutates only a `.copy()` of the stored entry. -/
def get_install_status (t : StatusTable) (component : String)
    (podsObs : Except String (List Pod)) (nsObs : Except String (List String)) :
    HandlerResult StatusResponse :=
  if component ∉ VALID_COMPONENTS then
    .httpError 404 ("Component " ++ component ++ " not found")
  else if component = "monitoring" then
    match lookupStatus t component with
    | some e => .ok (monitoringStatusRead e podsObs)
    | none => .ok (monitoringNoStatusRead podsObs)
  else if component = "jellyfin" then
    match lookupStatus t component with
    | some e => .ok (jellyfinStatusRead e podsObs)
    | none => .ok (jellyfinNoStatusRead podsObs)
  else
    match lookupStatus t component with
    | some e => .ok (genericStatusRead component e nsObs)
    | none => .ok (genericNoStatusRead component nsObs)

/-- A table write setting status, progress and message of one entry, the shape
of every terminal write of the background wrappers. -/
def setFinal (t : StatusTable) (c : String) (s : String) (p : Nat) (m : String) : StatusTable :=
  updateEntry t c (fun e => { e with status := s, progress := p, message := m })

/-- A table write setting only progress and message. -/
def setProgress (t : StatusTable) (c : String) (p : Nat) (m : String) : StatusTable :=
  updateEntry t c (fun e => { e with progress := p, message := m })

/-- A table write of the monotone kind used in the polling loops:
`progress = int(max(p, installation_status[c]["progress"]))`. -/
def bumpProgress (t : StatusTable) (c : String) (p : Nat) (m : String) : StatusTable :=
  updateEntry t c (fun e => { e with progress := max p e.progress, message := m })

/-- One iteration of the monitoring install polling loop
(`routers/install.py` lines 206-235): a pod-check failure is swallowed. -/
def installLoopStepMonitoring (t : StatusTable) (ob : Except String (List Pod)) : StatusTable :=
  match ob with
  | .error _ => t
  | .ok pods =>
    if pods.isEmpty = false then
      let running := readyCount pods
      let total := pods.length
      if 0 < total then
        bumpProgress t "monitoring" (15 + min (running * 70 / 8) 70)
          (if running = 0 then
            "Monitoring pods starting... " ++ toString total ++ " pods created"
          else if running < total then
            "Monitoring pods starting... " ++ toString running ++ "/" ++ toString total ++
              " pods ready"
          else "Monitoring stack almost ready... " ++ toString running ++ " pods running")
      else setProgress t "monitoring" 15 "Waiting for monitoring pods to be created..."
    else setProgress t "monitoring" 15 "Creating monitoring namespace and resources..."

/-- Final pod check of the monitoring install (lines 242-268): a probe failure
here marks the install completed. -/
def installFinalMonitoring (t : StatusTable) (finalObs : Except String (List Pod)) : StatusTable :=
  match finalObs with
  | .error _ =>
    setFinal t "monitoring" "completed" 100 "Monitoring stack installation completed"
  | .ok pods =>
    if pods.isEmpty = false then
      let running := readyCount pods
      let total := pods.length
      if 6 ≤ running then  -- expected_pods * 0.75 = 6
        setFinal t "monitoring" "completed" 100
          ("Monitoring stack installed successfully! " ++ toString running ++ " pods running.")
      else
        setFinal t "monitoring" "installing" 90
          ("Installation complete, waiting for all pods... " ++ toString running ++ "/" ++
            toString total ++ " ready")
    else setFinal t "monitoring" "error" 0 "Installation completed but no pods found"

/-- One iteration of the jellyfin install polling loop (lines 282-311). -/
def installLoopStepJellyfin (t : StatusTable) (ob : Except String (List Pod)) : StatusTable :=
  match ob with
  | .error _ => t
  | .ok pods =>
    if pods.isEmpty = false then
      let running := readyCount pods
      let total := pods.length
      if 0 < total then
        bumpProgress t "jellyfin" (15 + min (running * 70) 70)
          (if running = 0 then
            "Jellyfin pod starting... " ++ toString total ++ " pods created"
          else if running < total then
            "Jellyfin pod starting... " ++ toString running ++ "/" ++ toString total ++
              " pods ready"
          else "Jellyfin almost ready... " ++ toString running ++ " pods running")
      else setProgress t "jellyfin" 15 "Waiting for Jellyfin pod to be created..."
    else setProgress t "jellyfin" 15 "Creating Jellyfin namespace and resources..."

/-- Final pod check of the jellyfin install (lines 318-344);
`expected_pods * 0.75 = 0.75`, so the threshold is one ready pod. -/
def installFinalJellyfin (t : StatusTable) (finalObs : Except String (List Pod)) : StatusTable :=
  match finalObs with
  | .error _ => setFinal t "jellyfin" "completed" 100 "Jellyfin installation completed"
  | .ok pods =>
    if pods.isEmpty = false then
      let running := readyCount pods
      let total := pods.length
      if 1 ≤ running then
        setFinal t "jellyfin" "completed" 100
          ("Jellyfin installed successfully! " ++ toString running ++ " pods running.")
      else
        setFinal t "jellyfin" "installing" 90
          ("Installation complete, waiting for pod... " ++ toString running ++ "/" ++
            toString total ++ " ready")
    else setFinal t "jellyfin" "error" 0 "Installation completed but no pods found"

/-- The five simulated steps of the generic install branch (lines 352-360):
`progress = int((i + 1) / 5 * 100)` with message `"c: step"`. -/
def INSTALL_STEPS : List String :=
  ["preparing", "deploying", "configuring", "starting", "completed"]

def simulatedInstallSteps (c : String) (t : StatusTable) : StatusTable :=
  (List.range INSTALL_STEPS.length).foldl
    (fun acc i =>
      setProgress acc c ((i + 1) * 100 / INSTALL_STEPS.length)
        (c ++ ": " ++ INSTALL_STEPS.getD i ""))
    t

/-- `install_component_with_status` (lines 189-378).  `obs` is the sequence of
pod observations made by the polling loop while the deployer task runs,
`result` the outcome of `await install_task` (`.error` models a raised
exception), `finalObs` the final pod check.  The `except` handler at lines
374-378 makes the function total: an exception in the body becomes an
error entry, never a propagated exception. -/
def install_component_with_status (component : String) (obs : List (Except String (List Pod)))
    (result : Except String Bool) (finalObs : Except String (List Pod))
    (t : StatusTable) : StatusTable :=
  let t0 := setFinal t component "installing" 5 ("Starting installation of " ++ component)
  if component = "monitoring" then
    let t1 := setProgress t0 component 10 "Installing monitoring stack with Helm..."
    let t2 := obs.foldl installLoopStepMonitoring t1
    match result with
    | .error ex => setFinal t2 component "error" 0 ("Installation failed: " ++ ex)
    | .ok true => installFinalMonitoring t2 finalObs
    | .ok false => setFinal t2 component "error" 0 ("Failed to install " ++ component)
  else if component = "jellyfin" then
    let t1 := setProgress t0 component 10 "Creating Jellyfin ArgoCD application..."
    let t2 := obs.foldl installLoopStepJellyfin t1
    match result with
    | .error ex => setFinal t2 component "error" 0 ("Installation failed: " ++ ex)
    | .ok true => installFinalJellyfin t2 finalObs
    | .ok false => setFinal t2 component "error" 0 ("Failed to install " ++ component)
  else
    let t1 := simulatedInstallSteps component t0
    match result with
    | .error ex => setFinal t1 component "error" 0 ("Installation failed: " ++ ex)
    | .ok true =>
      setFinal t1 component "completed" 100 (component ++ " installed successfully!")
    | .ok false => setFinal t1 component "error" 0 ("Failed to install " ++ component)

/-- `uninstall_component_with_status` (lines 380-407); `result` is the outcome
of `await uninstall_component(...)`. -/
def uninstall_component_with_status (component : String) (result : Except String Bool)
    (t : StatusTable) : StatusTable :=
  let t1 := setFinal t component "uninstalling" 10 ("Uninstalling " ++ component ++ "...")
  match result with
  | .error ex => setFinal t1 component "error" 0 ("Uninstallation failed: " ++ ex)
  | .ok true =>
    setFinal t1 component "not_installed" 100 (component ++ " uninstalled successfully!")
  | .ok false => setFinal t1 component "error" 0 ("Failed to uninstall " ++ component)

/-- One iteration of the monitoring restart polling loop (lines 447-492).
The Bool component of the state is `restart_started`; `initialUids` models the
set `initial_pod_uids` (pod UIDs are pairwise distinct in a cluster). -/
def restartLoopStepMonitoring (initialUids : List String) (expected : Nat)
    (st : Bool × StatusTable) (ob : Except String (List Pod)) : Bool × StatusTable :=
  let started := st.1
  let t := st.2
  match ob with
  | .error _ => (started, t)
  | .ok pods =>
    if pods.isEmpty = false then
      let currentUids := (pods.map Pod.uid).eraseDups
      let running := readyCount pods
      let total := pods.length
      let started2 := started ||
        !(currentUids.filter (fun u => !(initialUids.contains u))).isEmpty ||
        decide (currentUids.length < initialUids.length)
      if started2 then
        if 0 < total then
          (started2, bumpProgress t "monitoring" (25 + min (running * 65 / expected) 65)
            (if running = 0 then
              "Restarting pods... " ++ toString total ++ " pods recreated"
            else if running < expected then
              "Pods restarting... " ++ toString running ++ "/" ++ toString total ++ " pods ready"
            else "Restart almost complete... " ++ toString running ++ " pods running"))
        else (started2, setProgress t "monitoring" 30 "Pods being recreated...")
      else (started2, setProgress t "monitoring" 20 "Waiting for pod restart to begin...")
    else (started, setProgress t "monitoring" 25 "Pods being recreated...")

/-- Final pod check of the monitoring restart (lines 500-528); the threshold
`running >= expected_pods * 0.75` is `4 * running >= 3 * expected` exactly. -/
def restartFinalMonitoring (expected : Nat) (t : StatusTable)
    (finalObs : Except String (List Pod)) : StatusTable :=
  match finalObs with
  | .error _ => setFinal t "monitoring" "completed" 100 "Restart completed"
  | .ok pods =>
    if pods.isEmpty = false then
      let running := readyCount pods
      let total := pods.length
      if 3 * expected ≤ 4 * running then
        setFinal t "monitoring" "completed" 100
          ("Restart completed successfully! " ++ toString running ++ " pods running.")
      else
        setFinal t "monitoring" "restarting" 95
          ("Restart complete, finalizing... " ++ toString running ++ "/" ++ toString total ++
            " ready")
    else setFinal t "monitoring" "error" 0 "Restart completed but no pods found"

/-- The four simulated steps of the generic restart branch (lines 535-543):
`progress = int(20 + (i / 4) * 80)`. -/
def RESTART_STEPS : List String :=
  ["triggering restart", "recreating pods", "waiting for readiness", "completed"]

def simulatedRestartSteps (c : String) (t : StatusTable) : StatusTable :=
  (List.range RESTART_STEPS.length).foldl
    (fun acc i =>
      setProgress acc c (20 + i * 80 / RESTART_STEPS.length)
        (c ++ ": " ++ RESTART_STEPS.getD i ""))
    t

/-- `restart_component_with_status` (lines 409-561).  `initialObs` is the
pre-restart pod listing that fixes `expected_pods` and `initial_pod_uids`,
`obs` the polling-loop observations, `result` the outcome of
`await restart_task`, `finalObs` the final pod check. -/
def restart_component_with_status (component : String)
    (initialObs : Except String (List Pod)) (obs : List (Except String (List Pod)))
    (result : Except String Bool) (finalObs : Except String (List Pod))
    (t : StatusTable) : StatusTable :=
  let t0 := setFinal t component "restarting" 10
    ("Starting rollout restart of " ++ component ++ "...")
  if component = "monitoring" then
    let t1 := setProgress t0 component 15
      "Triggering rollout restart of monitoring components..."
    let expected := match initialObs with
      | .ok pods => if pods.isEmpty then 8 else pods.length
      | .error _ => 8
    let initialUids := match initialObs with
      | .ok pods => (pods.map Pod.uid).eraseDups
      | .error _ => []
    let t2 := setProgress t1 component 20
      "Rollout restart triggered, monitoring pod recreation..."
    let t3 := (obs.foldl (restartLoopStepMonitoring initialUids expected) (false, t2)).2
    match result with
    | .error ex => setFinal t3 component "error" 0 ("Restart failed: " ++ ex)
    | .ok true => restartFinalMonitoring expected t3 finalObs
    | .ok false => setFinal t3 component "error" 0 ("Failed to restart " ++ component)
  else
    let t1 := simulatedRestartSteps component t0
    match result with
    | .error ex => setFinal t1 component "error" 0 ("Restart failed: " ++ ex)
    | .ok true =>
      setFinal t1 component "completed" 100 (component ++ " restarted successfully!")
    | .ok false => setFinal t1 component "error" 0 ("Failed to restart " ++ component)

/-- `restart_component` in `services/installer.py` (lines 731-925).
`deps` and `stss` are the outcomes of `list_namespaced_deployment` and
`list_namespaced_stateful_set` (lists of workload names); `patchOk` tells
whether each individual patch call succeeds.  A failed patch is logged and
skipped (inner `try/except`), so `patchOk` never influences the result; a
failed listing propagates through the outer handler as `.error`.
For monitoring and jellyfin an empty deployment list returns `False` before
the StatefulSet listing; the generic branch has no such check. -/
def restart_component (component : String) (deps : Except String (List String))
    (stss : Except String (List String)) (patchOk : String → Bool) :
    Except String Bool :=
  match get_app_config component with
  | none => .error ("Unknown component: " ++ component)
  | some _ =>
    if component = "monitoring" ∨ component = "jellyfin" then
      match deps with
      | .error ex => .error ex
      | .ok ds =>
        if ds.isEmpty then .ok false
        else
          let _ := ds.map patchOk
          match stss with
          | .error ex => .error ex
          | .ok ss =>
            let _ := ss.map patchOk
            .ok true
    else
      match deps with
      | .error ex => .error ex
      | .ok ds =>
        let _ := ds.map patchOk
        match stss with
        | .error ex => .error ex
        | .ok ss =>
          let _ := ss.map patchOk
          .ok true

/-- One persistence entry of the Jellyfin Helm values; `accessMode` is `none`
when the key is absent from the dict. -/
structure HelmPersistenceEntry where
  enabled : Bool
  size : String
  storageClass : String
  accessMode : Option String
deriving DecidableEq, Repr

/-- The Jellyfin Helm values document built by `create_jellyfin_helm_values`
(`services/installer.py` lines 83-138), flattened field by field. -/
structure JellyfinValues where
  image_repository : String
  image_tag : String
  image_pullPolicy : String
  service_type : String
  service_port : Nat
  persistence_config : HelmPersistenceEntry
  persistence_media : HelmPersistenceEntry
  resources_requests_memory : String
  resources_requests_cpu : String
  resources_limits_memory : String
  resources_limits_cpu : String
  env_TZ : String
  env_publishedServerUrl : String
deriving DecidableEq, Repr

/-- `create_jellyfin_helm_values`.  The Python condition
`if nfs_available and nfs_path:` is true only when the path is a non-empty
string (Python truthiness). -/
def create_jellyfin_helm_values (nfs_available : Bool) (nfs_path : Option String)
    (master_ip : String) : JellyfinValues :=
  let base : JellyfinValues :=
    { image_repository := "jellyfin/jellyfin"
      image_tag := "latest"
      image_pullPolicy := "Always"
      service_type := "LoadBalancer"
      service_port := 8096
      persistence_config := ⟨true, "2Gi", "", some "ReadWriteOnce"⟩
      persistence_media := ⟨true, "100Gi", "", none⟩
      resources_requests_memory := "512Mi"
      resources_requests_cpu := "250m"
      resources_limits_memory := "2Gi"
      resources_limits_cpu := "2000m"
      env_TZ := "UTC"
      env_publishedServerUrl := "http://" ++ master_ip ++ ":8096" }
  if nfs_available && (match nfs_path with | some p => !(p == "") | none => false) then
    { base with
        persistence_media := { base.persistence_media with accessMode := some "ReadWriteMany" }
        persistence_config := { base.persistence_config with accessMode := some "ReadWriteMany" } }
  else
    { base with
        persistence_media := { base.persistence_media with accessMode := some "ReadWriteOnce" } }

/-- A `volumeClaimTemplate.spec` block of the monitoring Helm values. -/
structure VolumeClaimSpec where
  accessModes : List String
  storageRequest : String
deriving DecidableEq, Repr

/-- The monitoring Helm values document built by
`create_monitoring_helm_values` (lines 140-229), flattened field by field;
`Option` fields model keys absent from the base dict. -/
structure MonitoringValues where
  prom_retention : String
  prom_retentionSize : String
  prom_scrapeInterval : String
  prom_evaluationInterval : String
  prom_enableAdminAPI : Bool
  prom_walCompression : Bool
  prom_maximumStartupDurationSeconds : Nat
  prom_storageSpec : Option VolumeClaimSpec
  grafana_adminPassword : String
  grafana_service_type : String
  grafana_service_port : Nat
  grafana_service_targetPort : Nat
  grafana_persistence_enabled : Bool
  grafana_persistence_size : String
  grafana_persistence_accessModes : Option (List String)
  grafana_defaultDashboardsEnabled : Bool
  grafana_adminUser : String
  alertmanager_retention : String
  alertmanager_storage : Option VolumeClaimSpec
  kubeStateMetrics_enabled : Bool
  nodeExporter_enabled : Bool
  prometheusOperator_enabled : Bool
deriving DecidableEq, Repr

/-- `create_monitoring_helm_values`. -/
def create_monitoring_helm_values (nfs_available : Bool) (nfs_path : Option String) :
    MonitoringValues :=
  let base : MonitoringValues :=
    { prom_retention := "15d"
      prom_retentionSize := "10GB"
      prom_scrapeInterval := "30s"
      prom_evaluationInterval := "30s"
      prom_enableAdminAPI := true
      prom_walCompression := true
      prom_maximumStartupDurationSeconds := 600
      prom_storageSpec := none
      grafana_adminPassword := "admin"
      grafana_service_type := "LoadBalancer"
      grafana_service_port := 3000
      grafana_service_targetPort := 3000
      grafana_persistence_enabled := true
      grafana_persistence_size := "1Gi"
      grafana_persistence_accessModes := none
      grafana_defaultDashboardsEnabled := true
      grafana_adminUser := "admin"
      alertmanager_retention := "120h"
      alertmanager_storage := none
      kubeStateMetrics_enabled := true
      nodeExporter_enabled := true
      prometheusOperator_enabled := true }
  if nfs_available && (match nfs_path with | some p => !(p == "") | none => false) then
    { base with
        prom_storageSpec := some ⟨["ReadWriteMany"], "10Gi"⟩
        grafana_persistence_accessModes := some ["ReadWriteMany"]
        alertmanager_storage := some ⟨["ReadWriteMany"], "2Gi"⟩ }
  else
    { base with prom_storageSpec := some ⟨["ReadWriteOnce"], "10Gi"⟩ }

/-- Erase the access-mode list inside a volume-claim spec, keeping every
other field (in particular the storage-size request). -/
def eraseVcsAccessModes (v : VolumeClaimSpec) : VolumeClaimSpec := { v with accessModes := [] }

/-- Erase every storage access-mode field of the monitoring values document carrying
the remaining structure over unchanged.  Two documents that differ only in
access-mode fields become equal under this map. -/
def eraseMonitoringAccessModes (v : MonitoringValues) : MonitoringValues :=
  { v with
      prom_storageSpec := v.prom_storageSpec.map eraseVcsAccessModes
      grafana_persistence_accessModes := none
      alertmanager_storage := v.alertmanager_storage.map eraseVcsAccessModes }

/-- Erase the two access-mode fields of the Jellyfin values document. -/
def eraseJellyfinAccessModes (v : JellyfinValues) : JellyfinValues :=
  { v with
      persistence_config := { v.persistence_config with accessMode := none }
      persistence_media := { v.persistence_media with accessMode := none } }

theorem lookup_setFinal_self (t : StatusTable) (c s m : String) (p : Nat) :
    lookupStatus (setFinal t c s p m) c =
      (lookupStatus t c).map (fun e => { e with status := s, progress := p, message := m }) :=
  lookupStatus_updateEntry_self t c _

theorem lookup_setFinal_other (t : StatusTable) (c c' s m : String) (p : Nat) (h : c' ≠ c) :
    lookupStatus (setFinal t c s p m) c' = lookupStatus t c' :=
  lookupStatus_updateEntry_other t c c' _ h

theorem lookup_setProgress_other (t : StatusTable) (c c' m : String) (p : Nat) (h : c' ≠ c) :
    lookupStatus (setProgress t c p m) c' = lookupStatus t c' :=
  lookupStatus_updateEntry_other t c c' _ h

theorem lookup_bumpProgress_other (t : StatusTable) (c c' m : String) (p : Nat) (h : c' ≠ c) :
    lookupStatus (bumpProgress t c p m) c' = lookupStatus t c' :=
  lookupStatus_updateEntry_other t c c' _ h

theorem isSome_updateEntry_self (t : StatusTable) (c : String) (f : StatusEntry → StatusEntry) :
    (lookupStatus (updateEntry t c f) c).isSome = (lookupStatus t c).isSome := by
  rw [lookupStatus_updateEntry_self]
  cases lookupStatus t c <;> rfl

/-- Invariant transport along a left fold. -/
theorem foldl_pred {α β : Type} (Q : α → Prop) (g : α → β → α)
    (step : ∀ a b, Q a → Q (g a b)) :
    ∀ (l : List β) (a : α), Q a → Q (l.foldl g a) := by
  intro l
  induction l with
  | nil => intro a h; exact h
  | cons hd tl ih => intro a h; exact ih _ (step a hd h)

theorem lookup_installLoopStepMonitoring_other (t : StatusTable)
    (ob : Except String (List Pod)) (c' : String) (h : c' ≠ "monitoring") :
    lookupStatus (installLoopStepMonitoring t ob) c' = lookupStatus t c' := by
  cases ob with
  | error e => rfl
  | ok pods =>
    simp only [installLoopStepMonitoring]
    split_ifs <;>
      first
        | exact lookup_bumpProgress_other _ _ _ _ _ h
        | exact lookup_setProgress_other _ _ _ _ _ h

theorem lookup_installLoopStepJellyfin_other (t : StatusTable)
    (ob : Except String (List Pod)) (c' : String) (h : c' ≠ "jellyfin") :
    lookupStatus (installLoopStepJellyfin t ob) c' = lookupStatus t c' := by
  cases ob with
  | error e => rfl
  | ok pods =>
    simp only [installLoopStepJellyfin]
    split_ifs <;>
      first
        | exact lookup_bumpProgress_other _ _ _ _ _ h
        | exact lookup_setProgress_other _ _ _ _ _ h

theorem lookup_restartLoopStepMonitoring_other (uids : List String) (expected : Nat)
    (st : Bool × StatusTable) (ob : Except String (List Pod)) (c' : String)
    (h : c' ≠ "monitoring") :
    lookupStatus (restartLoopStepMonitoring uids expected st ob).2 c' =
      lookupStatus st.2 c' := by
  cases ob with
  | error e => rfl
  | ok pods =>
    simp only [restartLoopStepMonitoring]
    split_ifs <;>
      first
        | exact lookup_bumpProgress_other _ _ _ _ _ h
        | exact lookup_setProgress_other _ _ _ _ _ h

theorem lookup_simulatedInstallSteps_other (c : String) (t : StatusTable) (c' : String)
    (h : c' ≠ c) :
    lookupStatus (simulatedInstallSteps c t) c' = lookupStatus t c' := by
  refine foldl_pred (fun t' => lookupStatus t' c' = lookupStatus t c') _ ?_ _ _ rfl
  intro a b hq
  rw [lookup_setProgress_other _ _ _ _ _ h, hq]

theorem lookup_simulatedRestartSteps_other (c : String) (t : StatusTable) (c' : String)
    (h : c' ≠ c) :
    lookupStatus (simulatedRestartSteps c t) c' = lookupStatus t c' := by
  refine foldl_pred (fun t' => lookupStatus t' c' = lookupStatus t c') _ ?_ _ _ rfl
  intro a b hq
  rw [lookup_setProgress_other _ _ _ _ _ h, hq]

theorem isSome_installLoopStepMonitoring_self (t : StatusTable)
    (ob : Except String (List Pod)) :
    (lookupStatus (installLoopStepMonitoring t ob) "monitoring").isSome =
      (lookupStatus t "monitoring").isSome := by
  cases ob with
  | error e => rfl
  | ok pods =>
    simp only [installLoopStepMonitoring]
    split_ifs <;> exact isSome_updateEntry_self _ _ _

theorem isSome_installLoopStepJellyfin_self (t : StatusTable)
    (ob : Except String (List Pod)) :
    (lookupStatus (installLoopStepJellyfin t ob) "jellyfin").isSome =
      (lookupStatus t "jellyfin").isSome := by
  cases ob with
  | error e => rfl
  | ok pods =>
    simp only [installLoopStepJellyfin]
    split_ifs <;> exact isSome_updateEntry_self _ _ _

theorem isSome_restartLoopStepMonitoring_self (uids : List String) (expected : Nat)
    (st : Bool × StatusTable) (ob : Except String (List Pod)) :
    (lookupStatus (restartLoopStepMonitoring uids expected st ob).2 "monitoring").isSome =
      (lookupStatus st.2 "monitoring").isSome := by
  cases ob with
  | error e => rfl
  | ok pods =>
    simp only [restartLoopStepMonitoring]
    split_ifs <;> exact isSome_updateEntry_self _ _ _

theorem isSome_simulatedInstallSteps_self (c : String) (t : StatusTable) :
    (lookupStatus (simulatedInstallSteps c t) c).isSome =
      (lookupStatus t c).isSome := by
  refine foldl_pred
    (fun t' => (lookupStatus t' c).isSome = (lookupStatus t c).isSome) _ ?_ _ _ rfl
  intro a b hq
  rw [setProgress, isSome_updateEntry_self, hq]

theorem isSome_simulatedRestartSteps_self (c : String) (t : StatusTable) :
    (lookupStatus (simulatedRestartSteps c t) c).isSome =
      (lookupStatus t c).isSome := by
  refine foldl_pred
    (fun t' => (lookupStatus t' c).isSome = (lookupStatus t c).isSome) _ ?_ _ _ rfl
  intro a b hq
  rw [setProgress, isSome_updateEntry_self, hq]

/-- C2, counterexample: `"prometheus"` is not a key of `APP_REGISTRY`, yet the
install endpoint does not produce a not-found outcome for it: it starts an
installation and writes a new entry into the status table, because the
endpoints validate against `VALID_COMPONENTS`, a different list that also
holds `"prometheus"` and `"grafana"`. -/
theorem registry_gap_prometheus_install_starts :
    get_app_config "prometheus" = none ∧
    (install_app [] "prometheus" "t0").response =
      .ok ⟨"started", "Installation of " ++ "prometheus" ++ " started", "prometheus", some 0⟩ ∧
    (install_app [] "prometheus" "t0").scheduled = true ∧
    lookupStatus (install_app [] "prometheus" "t0").table "prometheus" =
      some ⟨"installing", 0, "Starting installation of " ++ "prometheus", "t0", "prometheus"⟩ := by
  refine ⟨by decide, rfl, rfl, rfl⟩

/-- C2, amended: for every component identifier outside `VALID_COMPONENTS`
(rather than outside `APP_REGISTRY`), install, uninstall, restart and status
all return a 404 not-found outcome, leave the status table unchanged and
schedule no background task. -/
theorem invalid_component_not_found_untouched (c now : String) (t : StatusTable)
    (podsObs : Except ApiError (List Pod)) (podsObs2 : Except String (List Pod))
    (nsObs : Except String (List String)) (h : c ∉ VALID_COMPONENTS) :
    install_app t c now = ⟨.httpError 404 ("Component " ++ c ++ " not found"), t, false⟩ ∧
    uninstall_app t c now = ⟨.httpError 404 ("Component " ++ c ++ " not found"), t, false⟩ ∧
    restart_app t c podsObs now =
      ⟨.httpError 404 ("Component " ++ c ++ " not found"), t, false⟩ ∧
    get_install_status t c podsObs2 nsObs =
      .httpError 404 ("Component " ++ c ++ " not found") := by
  refine ⟨?_, ?_, ?_, ?_⟩ <;>
    simp [install_app, uninstall_app, restart_app, get_install_status, h]

theorem invalid_component_not_found_untouched_witness :
    ("nginx" ∉ VALID_COMPONENTS) ∧
    install_app [] "nginx" "t0" =
      ⟨.httpError 404 ("Component " ++ "nginx" ++ " not found"), [], false⟩ :=
  ⟨by decide,
    (invalid_component_not_found_untouched "nginx" "t0" [] (.error ⟨404⟩) (.ok []) (.ok [])
      (by decide)).1⟩

/-- C3, counterexample: with the stored status of `"monitoring"` equal to
`"uninstalling"`, a new install request is NOT rejected: the install endpoint
only guards against `"installing"`, so it starts a fresh install, overwrites
the stored entry and schedules a background task. -/
theorem install_not_blocked_by_uninstalling :
    (install_app [("monitoring", ⟨"uninstalling", 10, "m", "s", "monitoring"⟩)]
        "monitoring" "t0").response =
      .ok ⟨"started", "Installation of " ++ "monitoring" ++ " started", "monitoring", some 0⟩ ∧
    (install_app [("monitoring", ⟨"uninstalling", 10, "m", "s", "monitoring"⟩)]
        "monitoring" "t0").scheduled = true ∧
    lookupStatus (install_app [("monitoring", ⟨"uninstalling", 10, "m", "s", "monitoring"⟩)]
        "monitoring" "t0").table "monitoring" =
      some ⟨"installing", 0, "Starting installation of " ++ "monitoring", "t0", "monitoring"⟩ := by
  refine ⟨rfl, rfl, rfl⟩

/-- C3, amended: for a valid component, an install request is rejected with
`already_installing` exactly when the stored status is `installing` (a stored
`uninstalling` or `restarting` status does not block it); an uninstall
request on an uninstallable component, and a restart request on an
uninstallable component whose namespace probe finds at least one running pod,
are rejected with `already_processing` when the stored status is any of
installing, uninstalling, restarting.  Each rejection leaves the table
unchanged and schedules nothing. -/
theorem duplicate_operation_guards (c now : String) (t : StatusTable) (e : StatusEntry)
    (pods : List Pod) (hval : c ∈ VALID_COMPONENTS) (hlk : lookupStatus t c = some e) :
    (e.status = "installing" →
      install_app t c now =
        ⟨.ok ⟨"already_installing", "Installation of " ++ c ++ " is already in progress",
          c, none⟩, t, false⟩) ∧
    ((e.status = "uninstalling" ∨ e.status = "restarting") →
      (install_app t c now).scheduled = true ∧
      (install_app t c now).response =
        .ok ⟨"started", "Installation of " ++ c ++ " started", c, some 0⟩) ∧
    (isProcessingStatus e.status → can_uninstall_component c = true →
      uninstall_app t c now =
        ⟨.ok ⟨"already_processing", c ++ " is already being processed", c, none⟩, t, false⟩) ∧
    (isProcessingStatus e.status → can_uninstall_component c = true → 0 < runningCount pods →
      restart_app t c (.ok pods) now =
        ⟨.ok ⟨"already_processing", c ++ " is already being processed", c, none⟩, t, false⟩) := by
  refine ⟨?_, ?_, ?_, ?_⟩
  · intro hst
    simp [install_app, isInstalling, hlk, hst, hval]
  · intro hst
    have hne : e.status ≠ "installing" := by
      rcases hst with hst | hst <;> rw [hst] <;> decide
    constructor <;> simp [install_app, isInstalling, hlk, hne, hval]
  · intro hst hcu
    have hproc : isProcessing t c = true := by
      simp [isProcessing, hlk, decide_eq_true_eq]
      exact hst
    simp [uninstall_app, hval, hcu, hproc]
  · intro hst hcu hrun
    have hproc : isProcessing t c = true := by
      simp [isProcessing, hlk, decide_eq_true_eq]
      exact hst
    have hne : pods.isEmpty = false := by
      cases pods with
      | nil => simp [runningCount] at hrun
      | cons hd tl => rfl
    have hrz : ¬ (runningCount pods = 0) := Nat.pos_iff_ne_zero.mp hrun
    simp [restart_app, hval, hcu, hproc, hne, hrz]

theorem duplicate_operation_guards_witness :
    ("monitoring" ∈ VALID_COMPONENTS) ∧
    uninstall_app [("monitoring", ⟨"uninstalling", 10, "m", "s", "monitoring"⟩)]
        "monitoring" "t0" =
      ⟨.ok ⟨"already_processing", "monitoring" ++ " is already being processed",
        "monitoring", none⟩,
        [("monitoring", ⟨"uninstalling", 10, "m", "s", "monitoring"⟩)], false⟩ :=
  ⟨by decide,
    (duplicate_operation_guards "monitoring" "t0"
      [("monitoring", ⟨"uninstalling", 10, "m", "s", "monitoring"⟩)]
      ⟨"uninstalling", 10, "m", "s", "monitoring"⟩
      [⟨"Running", [true], "u1"⟩] (by decide) (by decide)).2.2.1
      (Or.inr (Or.inl rfl)) (by decide)⟩

/-- C10, confirmed: in the restart endpoint the running-pods precondition is
checked before the duplicate-operation guard, so for a valid, unprotected
component whose namespace probe finds no running pod the response is the 400
error, whatever the stored status (in particular when it is `installing`,
`uninstalling` or `restarting`), the table is unchanged and nothing is
scheduled. -/
theorem restart_pod_guard_before_duplicate_guard (c now : String) (t : StatusTable)
    (pods : List Pod) (hval : c ∈ VALID_COMPONENTS)
    (hcu : can_uninstall_component c = true) (hrun : runningCount pods = 0) :
    restart_app t c (.ok pods) now =
      ⟨.httpError 400
        (if pods.isEmpty then c ++ " is not installed - cannot restart"
         else c ++ " has no running pods - cannot restart"), t, false⟩ := by
  by_cases hemp : pods.isEmpty
  · simp [restart_app, hval, hcu, hemp]
  · simp [restart_app, hval, hcu, hemp, hrun]

theorem restart_pod_guard_before_duplicate_guard_witness :
    restart_app [("monitoring", ⟨"installing", 50, "m", "s", "monitoring"⟩)] "monitoring"
        (.ok [⟨"Pending", [], "u1"⟩]) "t0" =
      ⟨.httpError 400
        (if ([(⟨"Pending", [], "u1"⟩ : Pod)] : List Pod).isEmpty then
          "monitoring" ++ " is not installed - cannot restart"
         else "monitoring" ++ " has no running pods - cannot restart"),
        [("monitoring", ⟨"installing", 50, "m", "s", "monitoring"⟩)], false⟩ :=
  restart_pod_guard_before_duplicate_guard "monitoring" "t0"
    [("monitoring", ⟨"installing", 50, "m", "s", "monitoring"⟩)]
    [⟨"Pending", [], "u1"⟩] (by decide) (by decide) (by decide)

/-- C6, counterexample: `"sonarr"` is a registry component, but the generic
branch of `restart_component` has no empty-deployment check: with zero
Deployments found it still returns `True`, so "returns false iff zero
Deployments were found" fails. -/
theorem restart_component_true_with_zero_deployments :
    get_app_config "sonarr" ≠ none ∧
    restart_component "sonarr" (.ok []) (.ok []) (fun _ => false) = .ok true := by
  refine ⟨by decide, rfl⟩

/-- C6, amended: for the monitoring and jellyfin branches of
`restart_component`, a `False` result is returned exactly when the deployment
listing finds zero Deployments; for every other registry component the call
returns `True` regardless of the number of deployments.  In all branches the
outcome never depends on whether the individual patch calls succeed. -/
theorem restart_component_false_iff_no_deployments (c : String) (ds ss : List String)
    (patchOk patchOk2 : String → Bool) (cfg : AppConfig)
    (hc : get_app_config c = some cfg) :
    ((c = "monitoring" ∨ c = "jellyfin") →
      (restart_component c (.ok ds) (.ok ss) patchOk = .ok false ↔ ds = [])) ∧
    (¬ (c = "monitoring" ∨ c = "jellyfin") →
      restart_component c (.ok ds) (.ok ss) patchOk = .ok true) ∧
    restart_component c (.ok ds) (.ok ss) patchOk =
      restart_component c (.ok ds) (.ok ss) patchOk2 := by
  refine ⟨?_, ?_, ?_⟩
  · intro hmj
    by_cases hemp : ds.isEmpty
    · have : ds = [] := by
        cases ds with
        | nil => rfl
        | cons hd tl => simp [List.isEmpty] at hemp
      simp [restart_component, hc, hmj, hemp, this]
    · have : ds ≠ [] := by
        intro hd
        rw [hd] at hemp
        exact hemp rfl
      simp [restart_component, hc, hmj, hemp, this]
  · intro hmj
    simp [restart_component, hc, hmj]
  · by_cases hmj : c = "monitoring" ∨ c = "jellyfin" <;>
      simp [restart_component, hc, hmj]

theorem restart_component_false_iff_no_deployments_witness :
    (get_app_config "monitoring" =
      some ⟨"Monitoring Stack", true, "monitoring-stack", "monitoring",
        some "monitoring-stack"⟩) ∧
    (restart_component "monitoring" (.ok []) (.ok []) (fun _ => false) = .ok false ↔
      ([] : List String) = []) :=
  ⟨by decide,
    (restart_component_false_iff_no_deployments "monitoring" [] [] (fun _ => false)
      (fun _ => true)
      ⟨"Monitoring Stack", true, "monitoring-stack", "monitoring", some "monitoring-stack"⟩
      (by decide)).1 (Or.inl rfl)⟩

/-- C7, counterexample: the monitoring Helm values for the NFS and non-NFS
cases differ in more than the storage access-mode fields: even after erasing
every access-mode field, the two documents are distinct, because the NFS case
adds a whole alertmanager storage block (including a `2Gi` storage-size
request) that is absent otherwise. -/
theorem monitoring_values_differ_beyond_access_modes :
    eraseMonitoringAccessModes (create_monitoring_helm_values true (some "/mnt/tharnax-nfs")) ≠
      eraseMonitoringAccessModes (create_monitoring_helm_values false none) ∧
    (create_monitoring_helm_values true (some "/mnt/tharnax-nfs")).alertmanager_storage =
      some ⟨["ReadWriteMany"], "2Gi"⟩ ∧
    (create_monitoring_helm_values false none).alertmanager_storage = none := by
  refine ⟨by decide, rfl, rfl⟩

/-- C7, amended: the Jellyfin values documents for the two NFS outcomes differ
only in the two persistence access-mode fields (erasing those fields makes
them equal); for the monitoring stack the prometheus storage spec likewise
differs only in its access-mode list, but the NFS case additionally sets the
grafana persistence access-mode list and an alertmanager storage block (with
a `2Gi` request) that are entirely absent in the non-NFS case, so there the
documents differ beyond access-mode fields; all remaining fields agree. -/
theorem helm_values_nfs_differences (p ip : String) (hp : p ≠ "") :
    eraseJellyfinAccessModes (create_jellyfin_helm_values true (some p) ip) =
      eraseJellyfinAccessModes (create_jellyfin_helm_values false none ip) ∧
    (create_monitoring_helm_values true (some p)).prom_storageSpec.map eraseVcsAccessModes =
      (create_monitoring_helm_values false none).prom_storageSpec.map eraseVcsAccessModes ∧
    { create_monitoring_helm_values true (some p) with
        prom_storageSpec := (create_monitoring_helm_values false none).prom_storageSpec
        grafana_persistence_accessModes := none
        alertmanager_storage := none } = create_monitoring_helm_values false none := by
  have hb : (p == "") = false := by
    cases hpe : p == "" with
    | false => rfl
    | true => exact absurd (by simpa using hpe) hp
  refine ⟨?_, ?_, ?_⟩ <;>
    simp [create_jellyfin_helm_values, create_monitoring_helm_values,
      eraseJellyfinAccessModes, eraseVcsAccessModes, hb]

theorem helm_values_nfs_differences_witness :
    ("/mnt/nfs" : String) ≠ "" ∧
    eraseJellyfinAccessModes (create_jellyfin_helm_values true (some "/mnt/nfs") "10.0.0.1") =
      eraseJellyfinAccessModes (create_jellyfin_helm_values false none "10.0.0.1") :=
  ⟨by decide, (helm_values_nfs_differences "/mnt/nfs" "10.0.0.1" (by decide)).1⟩

/-- Progress of the monitoring status read in the installing state with a
non-empty pod observation: the maximum of the stored progress (clamped to at
least 15) and `15 + min(ready * 70 / 8, 70)`. -/
theorem monitoringStatusRead_installing_progress (e : StatusEntry) (pods : List Pod)
    (hst : e.status = "installing") (h : pods.isEmpty = false) :
    (monitoringStatusRead e (.ok pods)).progress =
      max (max e.progress 15) (15 + min (readyCount pods * 70 / 8) 70) := by
  have hlen : ¬ (pods.length = 0) := by
    cases pods with
    | nil => simp [List.isEmpty] at h
    | cons hd tl => simp
  simp [monitoringStatusRead, h, hst, hlen]

/-- C1, counterexample: reads never write the table, so two consecutive reads
of `"monitoring"` in the `installing` state see the same stored entry (here:
stored progress 15).  A first read observing 8 ready pods returns progress 85;
a second read observing the same 8 pods no longer ready returns progress 15.
The displayed progress drops from 85 to 15, refuting non-decrease for a pair
of observations whose ready-pod count decreases. -/
theorem monitoring_read_progress_can_drop :
    get_install_status [("monitoring", ⟨"installing", 15, "m", "s", "monitoring"⟩)]
        "monitoring" (.ok (List.replicate 8 ⟨"Running", [true], "u"⟩)) (.ok []) =
      .ok ⟨"installing", 85, "Monitoring pods starting... " ++ toString 8 ++ "/" ++
        toString 8 ++ " pods ready", some 8, some 8, none, none⟩ ∧
    get_install_status [("monitoring", ⟨"installing", 15, "m", "s", "monitoring"⟩)]
        "monitoring" (.ok (List.replicate 8 ⟨"Running", [false], "u"⟩)) (.ok []) =
      .ok ⟨"installing", 15, "Monitoring pods starting... " ++ toString 0 ++ "/" ++
        toString 8 ++ " pods ready", some 0, some 8, none, none⟩ ∧
    (15 : Nat) < 85 := by
  refine ⟨rfl, rfl, by decide⟩

/-- C1, amended: on a fixed stored entry in the `installing` state, the
progress returned by the monitoring status read is monotone in the observed
ready-pod count: across two reads whose probes both find at least one pod,
the returned progress is non-decreasing whenever the ready-pod count does not
decrease between them.  (When the ready count drops, the displayed progress
can drop with it, as the read recomputes from the stored progress only and
never persists the previously displayed value.) -/
theorem monitoring_read_progress_monotone_in_ready (t : StatusTable) (e : StatusEntry)
    (pods1 pods2 : List Pod) (ns1 ns2 : Except String (List String))
    (r1 r2 : StatusResponse)
    (hlk : lookupStatus t "monitoring" = some e) (hst : e.status = "installing")
    (h1 : pods1.isEmpty = false) (h2 : pods2.isEmpty = false)
    (hr : readyCount pods1 ≤ readyCount pods2)
    (hg1 : get_install_status t "monitoring" (.ok pods1) ns1 = .ok r1)
    (hg2 : get_install_status t "monitoring" (.ok pods2) ns2 = .ok r2) :
    r1.progress ≤ r2.progress := by
  have hv : ("monitoring" : String) ∈ VALID_COMPONENTS := by decide
  simp [get_install_status, hlk, hv] at hg1 hg2
  rw [← hg1, ← hg2,
    monitoringStatusRead_installing_progress e pods1 hst h1,
    monitoringStatusRead_installing_progress e pods2 hst h2]
  refine max_le_max (le_refl _) (Nat.add_le_add_left ?_ 15)
  exact min_le_min (Nat.div_le_div_right (Nat.mul_le_mul_right 70 hr)) (le_refl 70)

theorem monitoring_read_progress_monotone_in_ready_witness :
    (⟨"installing", 15, "Monitoring pods starting... " ++ toString 0 ++ "/" ++ toString 8 ++
        " pods ready", some 0, some 8, none, none⟩ : StatusResponse).progress ≤
    (⟨"installing", 85, "Monitoring pods starting... " ++ toString 8 ++ "/" ++ toString 8 ++
        " pods ready", some 8, some 8, none, none⟩ : StatusResponse).progress :=
  monitoring_read_progress_monotone_in_ready
    [("monitoring", ⟨"installing", 15, "m", "s", "monitoring"⟩)]
    ⟨"installing", 15, "m", "s", "monitoring"⟩
    (List.replicate 8 ⟨"Running", [false], "u"⟩)
    (List.replicate 8 ⟨"Running", [true], "u"⟩)
    (.ok []) (.ok []) _ _ rfl rfl rfl rfl (by decide) rfl rfl

/-- C4, counterexample: for `"monitoring"` with stored status `completed`, a
re-probe that finds an empty pod list (ready count 0, below the threshold 6)
does NOT downgrade: the read returns the stored `completed` entry unchanged,
because the downgrade branch only runs when the pod list is non-empty. -/
theorem completed_kept_when_no_pods :
    get_install_status [("monitoring", ⟨"completed", 100, "m", "s", "monitoring"⟩)]
        "monitoring" (.ok []) (.ok []) =
      .ok ⟨"completed", 100, "m", none, none, some "monitoring", some "s"⟩ := rfl

/-- C4, amended: for monitoring and jellyfin with stored status `completed`,
a status read whose probe finds a NON-EMPTY pod list with ready-pod count
below the completion threshold (6 of 8 expected pods for monitoring, 1 for
jellyfin) returns status `installing` with a high-but-not-100 progress; with
an empty pod list the stored `completed` status is returned unchanged. -/
theorem completed_downgraded_when_pods_below_threshold (t : StatusTable)
    (e e2 : StatusEntry) (pods pods2 : List Pod) (ns ns2 : Except String (List String))
    (hlkM : lookupStatus t "monitoring" = some e) (hstM : e.status = "completed")
    (hpM : pods.isEmpty = false) (hthM : readyCount pods < 6)
    (hlkJ : lookupStatus t "jellyfin" = some e2) (hstJ : e2.status = "completed")
    (hpJ : pods2.isEmpty = false) (hthJ : readyCount pods2 < 1) :
    get_install_status t "monitoring" (.ok pods) ns =
      .ok ⟨"installing", 90 + readyCount pods * 10 / 8,
        "Installation complete, pods starting... " ++ toString (readyCount pods) ++ "/" ++
          toString pods.length ++ " ready",
        some (readyCount pods), some pods.length, none, none⟩ ∧
    get_install_status t "jellyfin" (.ok pods2) ns2 =
      .ok ⟨"installing", 90 + readyCount pods2 * 10,
        "Installation complete, pod starting... " ++ toString (readyCount pods2) ++ "/" ++
          toString pods2.length ++ " ready",
        some (readyCount pods2), some pods2.length, none, none⟩ := by
  have h6 : ¬ (6 ≤ readyCount pods) := Nat.not_le.mpr hthM
  have h1 : ¬ (1 ≤ readyCount pods2) := Nat.not_le.mpr hthJ
  have hcompM : e.status ≠ "installing" := by rw [hstM]; decide
  have hcompJ : e2.status ≠ "installing" := by rw [hstJ]; decide
  have hvM : ("monitoring" : String) ∈ VALID_COMPONENTS := by decide
  have hvJ : ("jellyfin" : String) ∈ VALID_COMPONENTS := by decide
  constructor
  · simp [get_install_status, hvM, hlkM, monitoringStatusRead, hpM, hstM, hcompM, h6]
  · simp [get_install_status, hvJ, hlkJ, jellyfinStatusRead, hpJ, hstJ, hcompJ, h1]

theorem completed_downgraded_when_pods_below_threshold_witness :
    get_install_status
        [("monitoring", ⟨"completed", 100, "m", "s", "monitoring"⟩),
         ("jellyfin", ⟨"completed", 100, "m2", "s2", "jellyfin"⟩)]
        "monitoring" (.ok [⟨"Pending", [], "u1"⟩]) (.ok []) =
      .ok ⟨"installing", 90 + readyCount [⟨"Pending", [], "u1"⟩] * 10 / 8,
        "Installation complete, pods starting... " ++
          toString (readyCount [⟨"Pending", [], "u1"⟩]) ++ "/" ++
          toString ([(⟨"Pending", [], "u1"⟩ : Pod)] : List Pod).length ++ " ready",
        some (readyCount [⟨"Pending", [], "u1"⟩]),
        some ([(⟨"Pending", [], "u1"⟩ : Pod)] : List Pod).length, none, none⟩ :=
  (completed_downgraded_when_pods_below_threshold
    [("monitoring", ⟨"completed", 100, "m", "s", "monitoring"⟩),
     ("jellyfin", ⟨"completed", 100, "m2", "s2", "jellyfin"⟩)]
    ⟨"completed", 100, "m", "s", "monitoring"⟩ ⟨"completed", 100, "m2", "s2", "jellyfin"⟩
    [⟨"Pending", [], "u1"⟩] [⟨"Pending", [], "u1"⟩] (.ok []) (.ok [])
    rfl rfl rfl (by decide) rfl rfl rfl (by decide)).1

/-- C8, counterexample: for `"sonarr"` (a generic component) with stored
status `completed`, a failing namespace probe does not fall back to the
stored status: the outer handler converts the read into a synthesized error
object, which differs from the stored entry. -/
theorem generic_completed_probe_failure_returns_error_object :
    get_install_status [("sonarr", ⟨"completed", 100, "m", "s", "sonarr"⟩)] "sonarr"
        (.ok []) (.error "boom") =
      .ok ⟨"error", 0, "Error checking status: " ++ "boom", none, none, some "sonarr", none⟩ ∧
    (⟨"error", 0, "Error checking status: " ++ "boom", none, none, some "sonarr", none⟩ :
        StatusResponse) ≠
      entryToResponse ⟨"completed", 100, "m", "s", "sonarr"⟩ := by
  refine ⟨rfl, by decide⟩

/-- C8, amended: every status read of a valid component returns a well-formed
object (the read function is total: every probe failure is consumed by a
handler).  With a stored entry present, a probe failure falls back to the
stored status for monitoring and jellyfin; for the other components no probe
influences the read unless the stored status is `completed`, in which case a
namespace-probe failure yields a synthesized error object instead of the
stored status. -/
theorem status_read_probe_failure_fallback (c ex : String) (t : StatusTable)
    (e : StatusEntry) (nsObs : Except String (List String))
    (podsObs : Except String (List Pod)) (hlk : lookupStatus t c = some e) :
    (c = "monitoring" →
      get_install_status t c (.error ex) nsObs = .ok (entryToResponse e)) ∧
    (c = "jellyfin" →
      get_install_status t c (.error ex) nsObs = .ok (entryToResponse e)) ∧
    (c ∈ VALID_COMPONENTS → c ≠ "monitoring" → c ≠ "jellyfin" → e.status ≠ "completed" →
      get_install_status t c podsObs nsObs = .ok (entryToResponse e)) ∧
    (c ∈ VALID_COMPONENTS → c ≠ "monitoring" → c ≠ "jellyfin" → e.status = "completed" →
      get_install_status t c podsObs (.error ex) =
        .ok ⟨"error", 0, "Error checking status: " ++ ex, none, none, some c, none⟩) := by
  refine ⟨?_, ?_, ?_, ?_⟩
  · intro hc
    subst hc
    have hv : ("monitoring" : String) ∈ VALID_COMPONENTS := by decide
    simp [get_install_status, hv, hlk, monitoringStatusRead]
  · intro hc
    subst hc
    have hv : ("jellyfin" : String) ∈ VALID_COMPONENTS := by decide
    simp [get_install_status, hv, hlk, jellyfinStatusRead]
  · intro hval hm hj hcomp
    simp [get_install_status, hval, hm, hj, hlk, genericStatusRead, hcomp]
  · intro hval hm hj hcomp
    simp [get_install_status, hval, hm, hj, hlk, genericStatusRead, hcomp]

theorem status_read_probe_failure_fallback_witness :
    get_install_status [("monitoring", ⟨"installing", 40, "m", "s", "monitoring"⟩)]
        "monitoring" (.error "boom") (.ok []) =
      .ok (entryToResponse ⟨"installing", 40, "m", "s", "monitoring"⟩) :=
  (status_read_probe_failure_fallback "monitoring" "boom"
    [("monitoring", ⟨"installing", 40, "m", "s", "monitoring"⟩)]
    ⟨"installing", 40, "m", "s", "monitoring"⟩ (.ok []) (.ok []) rfl).1 rfl

/-- A terminal error write on an existing entry yields an entry with status
`error`, progress 0 and the handler message. -/
theorem exists_error_entry (T : StatusTable) (c m : String)
    (h : (lookupStatus T c).isSome = true) :
    ∃ e1, lookupStatus (setFinal T c "error" 0 m) c = some e1 ∧
      e1.status = "error" ∧ e1.progress = 0 ∧ e1.message = m := by
  rw [lookup_setFinal_self]
  cases hT : lookupStatus T c with
  | none => rw [hT] at h; simp at h
  | some e0 => exact ⟨_, rfl, rfl, rfl, rfl⟩

/-- C5, confirmed: an exception raised inside any of the three background
tasks is caught by the wrapper handler, which sets the stored status to
`error`, the progress to 0 and the message to the handler prefix followed by
the exception text.  The wrappers are total functions into `StatusTable`
(they return a table, never an exception), mirroring that the Python handlers
swallow the exception and the detached task has no caller to re-raise to. -/
theorem background_task_exception_sets_error_state (c ex : String)
    (obs : List (Except String (List Pod)))
    (finalObs initialObs : Except String (List Pod)) (t : StatusTable)
    (hsome : (lookupStatus t c).isSome = true) :
    (∃ e1, lookupStatus (install_component_with_status c obs (.error ex) finalObs t) c =
        some e1 ∧ e1.status = "error" ∧ e1.progress = 0 ∧
        e1.message = "Installation failed: " ++ ex) ∧
    (∃ e2, lookupStatus (uninstall_component_with_status c (.error ex) t) c = some e2 ∧
        e2.status = "error" ∧ e2.progress = 0 ∧
        e2.message = "Uninstallation failed: " ++ ex) ∧
    (∃ e3, lookupStatus
        (restart_component_with_status c initialObs obs (.error ex) finalObs t) c =
        some e3 ∧ e3.status = "error" ∧ e3.progress = 0 ∧
        e3.message = "Restart failed: " ++ ex) := by
  refine ⟨?_, ?_, ?_⟩
  · simp only [install_component_with_status]
    by_cases hM : c = "monitoring"
    · subst hM
      rw [if_pos rfl]
      apply exists_error_entry
      refine foldl_pred (fun t' => (lookupStatus t' "monitoring").isSome = true) _ ?_ _ _ ?_
      · intro a b hq
        rw [isSome_installLoopStepMonitoring_self]
        exact hq
      · dsimp only
        simp only [setProgress, setFinal, isSome_updateEntry_self]
        exact hsome
    · by_cases hJ : c = "jellyfin"
      · subst hJ
        rw [if_neg hM, if_pos rfl]
        apply exists_error_entry
        refine foldl_pred (fun t' => (lookupStatus t' "jellyfin").isSome = true) _ ?_ _ _ ?_
        · intro a b hq
          rw [isSome_installLoopStepJellyfin_self]
          exact hq
        · dsimp only
          simp only [setProgress, setFinal, isSome_updateEntry_self]
          exact hsome
      · rw [if_neg hM, if_neg hJ]
        apply exists_error_entry
        rw [isSome_simulatedInstallSteps_self, setFinal, isSome_updateEntry_self]
        exact hsome
  · simp only [uninstall_component_with_status]
    apply exists_error_entry
    rw [setFinal, isSome_updateEntry_self]
    exact hsome
  · simp only [restart_component_with_status]
    by_cases hM : c = "monitoring"
    · subst hM
      rw [if_pos rfl]
      apply exists_error_entry
      refine foldl_pred
        (fun st : Bool × StatusTable => (lookupStatus st.2 "monitoring").isSome = true)
        _ ?_ _ _ ?_
      · intro a b hq
        rw [isSome_restartLoopStepMonitoring_self]
        exact hq
      · dsimp only
        simp only [setProgress, setFinal, isSome_updateEntry_self]
        exact hsome
    · rw [if_neg hM]
      apply exists_error_entry
      rw [isSome_simulatedRestartSteps_self, setFinal, isSome_updateEntry_self]
      exact hsome

theorem background_task_exception_sets_error_state_witness :
    ((lookupStatus [("monitoring",
        (⟨"installing", 5, "m", "s", "monitoring"⟩ : StatusEntry))] "monitoring").isSome
      = true) ∧
    (∃ e1, lookupStatus (install_component_with_status "monitoring" [] (.error "boom")
        (.ok []) [("monitoring", ⟨"installing", 5, "m", "s", "monitoring"⟩)]) "monitoring" =
        some e1 ∧ e1.status = "error" ∧ e1.progress = 0 ∧
        e1.message = "Installation failed: " ++ "boom") :=
  ⟨by decide,
    (background_task_exception_sets_error_state "monitoring" "boom" [] (.ok []) (.ok [])
      [("monitoring", ⟨"installing", 5, "m", "s", "monitoring"⟩)] (by decide)).1⟩

/-- The table invariant of claim C9: a stored status of `error` always comes
with progress 0. -/
def ErrorZero (t : StatusTable) : Prop :=
  ∀ c e, lookupStatus t c = some e → e.status = "error" → e.progress = 0

/-- The per-write half of claim C9, stated for one atomic table mutation from
`t` to `t2`: any entry whose status reads `error` after the mutation either
already had status `error` before it (the write did not set the status field
to `error`) or has progress 0.  So a single write that makes a status become
`error` always sets progress 0 in that same write. -/
def ErrorWriteOk (t t2 : StatusTable) : Prop :=
  ∀ c e2, lookupStatus t2 c = some e2 → e2.status = "error" →
    (∃ e, lookupStatus t c = some e ∧ e.status = "error") ∨ e2.progress = 0

theorem errorWriteOk_refl (t : StatusTable) : ErrorWriteOk t t :=
  fun _ e2 hlk hst => Or.inl ⟨e2, hlk, hst⟩

theorem errorWriteOk_setStatus (t : StatusTable) (c : String) (e : StatusEntry)
    (he : e.status = "error" → e.progress = 0) : ErrorWriteOk t (setStatus t c e) := by
  intro c2 e2 hlk hst
  by_cases hc : c2 = c
  · subst hc
    rw [lookupStatus_setStatus_self] at hlk
    have hee := Option.some.inj hlk
    right
    rw [← hee] at hst ⊢
    exact he hst
  · rw [lookupStatus_setStatus_other _ _ _ _ hc] at hlk
    exact Or.inl ⟨e2, hlk, hst⟩

theorem errorWriteOk_setFinal (t : StatusTable) (c s m : String) (p : Nat)
    (hp : s = "error" → p = 0) : ErrorWriteOk t (setFinal t c s p m) := by
  intro c2 e2 hlk hst
  by_cases hc : c2 = c
  · subst hc
    rw [lookup_setFinal_self] at hlk
    cases hT : lookupStatus t c2 with
    | none => rw [hT] at hlk; simp at hlk
    | some e0 =>
      rw [hT] at hlk
      simp only [Option.map_some'] at hlk
      have hee := Option.some.inj hlk
      right
      rw [← hee] at hst ⊢
      exact hp hst
  · rw [lookup_setFinal_other _ _ _ _ _ _ hc] at hlk
    exact Or.inl ⟨e2, hlk, hst⟩

/-- A field update that leaves the status field unchanged (the progress and
message writes of the polling loops) can never make a status become `error`. -/
theorem errorWriteOk_statusPreserving (t : StatusTable) (c : String)
    (f : StatusEntry → StatusEntry) (hf : ∀ e, (f e).status = e.status) :
    ErrorWriteOk t (updateEntry t c f) := by
  intro c2 e2 hlk hst
  by_cases hc : c2 = c
  · subst hc
    rw [lookupStatus_updateEntry_self] at hlk
    cases hT : lookupStatus t c2 with
    | none => rw [hT] at hlk; simp at hlk
    | some e0 =>
      rw [hT] at hlk
      simp only [Option.map_some'] at hlk
      have hee := Option.some.inj hlk
      refine Or.inl ⟨e0, rfl, ?_⟩
      rw [← hf e0, hee]
      exact hst
  · rw [lookupStatus_updateEntry_other _ _ _ _ hc] at hlk
    exact Or.inl ⟨e2, hlk, hst⟩

theorem errorWriteOk_installLoopStepMonitoring (t : StatusTable)
    (ob : Except String (List Pod)) : ErrorWriteOk t (installLoopStepMonitoring t ob) := by
  cases ob with
  | error e => exact errorWriteOk_refl t
  | ok pods =>
    simp only [installLoopStepMonitoring]
    split_ifs <;> exact errorWriteOk_statusPreserving _ _ _ (fun e => rfl)

theorem errorWriteOk_installLoopStepJellyfin (t : StatusTable)
    (ob : Except String (List Pod)) : ErrorWriteOk t (installLoopStepJellyfin t ob) := by
  cases ob with
  | error e => exact errorWriteOk_refl t
  | ok pods =>
    simp only [installLoopStepJellyfin]
    split_ifs <;> exact errorWriteOk_statusPreserving _ _ _ (fun e => rfl)

theorem errorWriteOk_restartLoopStepMonitoring (uids : List String) (expected : Nat)
    (started : Bool) (t : StatusTable) (ob : Except String (List Pod)) :
    ErrorWriteOk t (restartLoopStepMonitoring uids expected (started, t) ob).2 := by
  cases ob with
  | error e => exact errorWriteOk_refl t
  | ok pods =>
    simp only [restartLoopStepMonitoring]
    split_ifs <;> exact errorWriteOk_statusPreserving _ _ _ (fun e => rfl)

theorem errorWriteOk_installFinalMonitoring (t : StatusTable)
    (fin : Except String (List Pod)) : ErrorWriteOk t (installFinalMonitoring t fin) := by
  cases fin with
  | error e => exact errorWriteOk_setFinal _ _ _ _ _ (fun hq => absurd hq (by decide))
  | ok pods =>
    simp only [installFinalMonitoring]
    split_ifs <;>
      first
        | exact errorWriteOk_setFinal _ _ _ _ _ (fun _ => rfl)
        | exact errorWriteOk_setFinal _ _ _ _ _ (fun hq => absurd hq (by decide))

theorem errorWriteOk_installFinalJellyfin (t : StatusTable)
    (fin : Except String (List Pod)) : ErrorWriteOk t (installFinalJellyfin t fin) := by
  cases fin with
  | error e => exact errorWriteOk_setFinal _ _ _ _ _ (fun hq => absurd hq (by decide))
  | ok pods =>
    simp only [installFinalJellyfin]
    split_ifs <;>
      first
        | exact errorWriteOk_setFinal _ _ _ _ _ (fun _ => rfl)
        | exact errorWriteOk_setFinal _ _ _ _ _ (fun hq => absurd hq (by decide))

theorem errorWriteOk_restartFinalMonitoring (expected : Nat) (t : StatusTable)
    (fin : Except String (List Pod)) :
    ErrorWriteOk t (restartFinalMonitoring expected t fin) := by
  cases fin with
  | error e => exact errorWriteOk_setFinal _ _ _ _ _ (fun hq => absurd hq (by decide))
  | ok pods =>
    simp only [restartFinalMonitoring]
    split_ifs <;>
      first
        | exact errorWriteOk_setFinal _ _ _ _ _ (fun _ => rfl)
        | exact errorWriteOk_setFinal _ _ _ _ _ (fun hq => absurd hq (by decide))

theorem errorWriteOk_install_app (t : StatusTable) (c now : String) :
    ErrorWriteOk t (install_app t c now).table := by
  simp only [install_app]
  split_ifs <;>
    first
      | exact errorWriteOk_refl t
      | exact errorWriteOk_setStatus _ _ _ (fun hq => by simp at hq)

theorem errorWriteOk_uninstall_app (t : StatusTable) (c now : String) :
    ErrorWriteOk t (uninstall_app t c now).table := by
  simp only [uninstall_app]
  split_ifs <;>
    first
      | exact errorWriteOk_refl t
      | exact errorWriteOk_setStatus _ _ _ (fun hq => by simp at hq)

theorem errorWriteOk_restart_app (t : StatusTable) (c : String)
    (podsObs : Except ApiError (List Pod)) (now : String) :
    ErrorWriteOk t (restart_app t c podsObs now).table := by
  simp only [restart_app]
  cases podsObs with
  | error e =>
    dsimp only
    split_ifs <;> exact errorWriteOk_refl t
  | ok pods =>
    dsimp only
    split_ifs <;>
      first
        | exact errorWriteOk_refl t
        | exact errorWriteOk_setStatus _ _ _ (fun hq => by simp at hq)

/-- One ATOMIC table write of the program, at the granularity at which the
asyncio runtime can interleave concurrent request handlers and background
tasks: consecutive dictionary writes with no `await` between them form one
step, and every constructor is one such write group of the source, with
nothing merged across an `await`.  Constructors:
request handlers (each handler is synchronous up to its response);
install wrapper: the opening writes at lines 194-196, the branch-opening
writes at 199-200 / 275-276, one polling-loop iteration (206-235 / 282-311,
each iteration ends in `await asyncio.sleep`), the final pod check
(242-267 / 318-343), the failure writes (270-273 / 346-349) and the handler
(374-378), and for generic components one simulated step (354-357) and the
result writes (365-372); uninstall wrapper: 386-388, 393-401, 403-407;
restart wrapper: 415-417, 421-422, 439-440, one loop iteration (447-492),
the final check (500-526), 529-532, 557-561, and the generic simulated step
(537-540) and result writes (548-555).  The relation places no ordering
constraint between steps, so it admits every schedule the runtime can
produce (and more); the reachability derivations used below follow schedules
the runtime does produce. -/
inductive FineStep : StatusTable → StatusTable → Prop where
  | installReq (t : StatusTable) (c now : String) : FineStep t (install_app t c now).table
  | uninstallReq (t : StatusTable) (c now : String) :
      FineStep t (uninstall_app t c now).table
  | restartReq (t : StatusTable) (c : String) (podsObs : Except ApiError (List Pod))
      (now : String) : FineStep t (restart_app t c podsObs now).table
  | installInit (t : StatusTable) (c : String) :
      FineStep t (setFinal t c "installing" 5 ("Starting installation of " ++ c))
  | installMonitoringBegin (t : StatusTable) :
      FineStep t (setProgress t "monitoring" 10 "Installing monitoring stack with Helm...")
  | installJellyfinBegin (t : StatusTable) :
      FineStep t (setProgress t "jellyfin" 10 "Creating Jellyfin ArgoCD application...")
  | installMonitoringPoll (t : StatusTable) (ob : Except String (List Pod)) :
      FineStep t (installLoopStepMonitoring t ob)
  | installJellyfinPoll (t : StatusTable) (ob : Except String (List Pod)) :
      FineStep t (installLoopStepJellyfin t ob)
  | installMonitoringFinal (t : StatusTable) (fin : Except String (List Pod)) :
      FineStep t (installFinalMonitoring t fin)
  | installJellyfinFinal (t : StatusTable) (fin : Except String (List Pod)) :
      FineStep t (installFinalJellyfin t fin)
  | installError (t : StatusTable) (c ex : String) :
      FineStep t (setFinal t c "error" 0 ("Installation failed: " ++ ex))
  | installFalse (t : StatusTable) (c : String) :
      FineStep t (setFinal t c "error" 0 ("Failed to install " ++ c))
  | installSimStep (t : StatusTable) (c : String) (i : Nat) :
      FineStep t (setProgress t c ((i + 1) * 100 / INSTALL_STEPS.length)
        (c ++ ": " ++ INSTALL_STEPS.getD i ""))
  | installGenericDone (t : StatusTable) (c : String) :
      FineStep t (setFinal t c "completed" 100 (c ++ " installed successfully!"))
  | uninstallBegin (t : StatusTable) (c : String) :
      FineStep t (setFinal t c "uninstalling" 10 ("Uninstalling " ++ c ++ "..."))
  | uninstallDone (t : StatusTable) (c : String) :
      FineStep t (setFinal t c "not_installed" 100 (c ++ " uninstalled successfully!"))
  | uninstallError (t : StatusTable) (c ex : String) :
      FineStep t (setFinal t c "error" 0 ("Uninstallation failed: " ++ ex))
  | uninstallFalse (t : StatusTable) (c : String) :
      FineStep t (setFinal t c "error" 0 ("Failed to uninstall " ++ c))
  | restartBegin (t : StatusTable) (c : String) :
      FineStep t (setFinal t c "restarting" 10 ("Starting rollout restart of " ++ c ++ "..."))
  | restartMonitoringTrigger (t : StatusTable) :
      FineStep t
        (setProgress t "monitoring" 15 "Triggering rollout restart of monitoring components...")
  | restartMonitoringTriggered (t : StatusTable) :
      FineStep t (setProgress t "monitoring" 20
        "Rollout restart triggered, monitoring pod recreation...")
  | restartMonitoringPoll (t : StatusTable) (uids : List String) (expected : Nat)
      (started : Bool) (ob : Except String (List Pod)) :
      FineStep t (restartLoopStepMonitoring uids expected (started, t) ob).2
  | restartMonitoringFinal (t : StatusTable) (expected : Nat)
      (fin : Except String (List Pod)) :
      FineStep t (restartFinalMonitoring expected t fin)
  | restartError (t : StatusTable) (c ex : String) :
      FineStep t (setFinal t c "error" 0 ("Restart failed: " ++ ex))
  | restartFalse (t : StatusTable) (c : String) :
      FineStep t (setFinal t c "error" 0 ("Failed to restart " ++ c))
  | restartSimStep (t : StatusTable) (c : String) (i : Nat) :
      FineStep t (setProgress t c (20 + i * 80 / RESTART_STEPS.length)
        (c ++ ": " ++ RESTART_STEPS.getD i ""))
  | restartGenericDone (t : StatusTable) (c : String) :
      FineStep t (setFinal t c "completed" 100 (c ++ " restarted successfully!"))

/-- Tables reachable from the empty initial `installation_status = {}` under
write-level interleaving of handlers and background tasks. -/
inductive FineReachable : StatusTable → Prop where
  | init : FineReachable []
  | step {t t2 : StatusTable} : FineReachable t → FineStep t t2 → FineReachable t2

/-- The table produced by this executable schedule (every group below runs
without an intervening `await`, and suspensions happen only where noted):
1. `DELETE /install/monitoring` stores an `uninstalling` entry and schedules
   the uninstall task;
2. the uninstall task starts: writes `uninstalling`/10 (lines 386-388), then
   suspends awaiting `uninstall_component`;
3. `POST /install/monitoring` passes the duplicate guard, which only blocks
   status `installing` (line 37, the C3 gap), overwrites the entry with
   `installing`/0 and schedules the install task;
4. the install task starts: writes `installing`/5 then 10 (194-200), runs
   its first polling iteration (one pod, none ready: progress 15), then
   suspends in `await asyncio.sleep(3)` (235);
5. during that sleep the awaited uninstall call raises, and the uninstall
   handler writes `error`/0 (405-406);
6. the install loop wakes and its next iteration writes progress/message
   only (216-220): the entry now has status `error` with progress 15. -/
def interleavedUninstallInstallTrace : StatusTable :=
  installLoopStepMonitoring
    (setFinal
      (installLoopStepMonitoring
        (setProgress
          (setFinal
            (install_app
              (setFinal (uninstall_app [] "monitoring" "s1").table "monitoring"
                "uninstalling" 10 ("Uninstalling " ++ "monitoring" ++ "..."))
              "monitoring" "s2").table
            "monitoring" "installing" 5 ("Starting installation of " ++ "monitoring"))
          "monitoring" 10 "Installing monitoring stack with Helm...")
        (.ok [⟨"Pending", [], "u1"⟩]))
      "monitoring" "error" 0 ("Uninstallation failed: " ++ "boom"))
    (.ok [⟨"Pending", [], "u1"⟩])

/-- C9, counterexample: at the write-level granularity at which the program
really interleaves, the invariant fails.  The schedule documented at
`interleavedUninstallInstallTrace` (enabled by the install-guard gap of C3)
reaches a table whose `monitoring` entry has status `error` and progress 15:
the uninstall handler writes `error`/0, and the concurrently running install
polling loop then writes progress and message only, leaving the error status
with a nonzero progress.  So `ErrorZero` does not hold of every reachable
state, although each single error write does set progress 0. -/
theorem interleaved_error_entry_nonzero_progress :
    FineReachable interleavedUninstallInstallTrace ∧
    lookupStatus interleavedUninstallInstallTrace "monitoring" =
      some ⟨"error", 15, "Monitoring pods starting... " ++ toString 1 ++ " pods created",
        "s2", "monitoring"⟩ ∧
    ¬ ErrorZero interleavedUninstallInstallTrace := by
  refine ⟨?_, rfl, ?_⟩
  · exact FineReachable.step
      (FineReachable.step
        (FineReachable.step
          (FineReachable.step
            (FineReachable.step
              (FineReachable.step
                (FineReachable.step
                  (FineReachable.step FineReachable.init
                    (FineStep.uninstallReq [] "monitoring" "s1"))
                  (FineStep.uninstallBegin _ "monitoring"))
                (FineStep.installReq _ "monitoring" "s2"))
              (FineStep.installInit _ "monitoring"))
            (FineStep.installMonitoringBegin _))
          (FineStep.installMonitoringPoll _ (.ok [⟨"Pending", [], "u1"⟩])))
        (FineStep.uninstallError _ "monitoring" "boom"))
      (FineStep.installMonitoringPoll _ (.ok [⟨"Pending", [], "u1"⟩]))
  · intro h
    exact absurd (h "monitoring" _ rfl rfl) (by decide)

/-- C9, amended: every single write that sets a stored status field to
`error` also sets the progress field to 0 in that same write: after any one
atomic write of the program, an entry with status `error` either already had
status `error` before the write or has progress 0.  The reachable-state
consequence claimed from this, however, is false at the granularity at which
the tasks really interleave, because the polling loops write progress
without touching status (see the counterexample). -/
theorem error_write_sets_zero_progress (t t2 : StatusTable) (h : FineStep t t2) :
    ErrorWriteOk t t2 := by
  cases h with
  | installReq c now => exact errorWriteOk_install_app t c now
  | uninstallReq c now => exact errorWriteOk_uninstall_app t c now
  | restartReq c podsObs now => exact errorWriteOk_restart_app t c podsObs now
  | installInit c => exact errorWriteOk_setFinal _ _ _ _ _ (fun hq => absurd hq (by decide))
  | installMonitoringBegin => exact errorWriteOk_statusPreserving _ _ _ (fun e => rfl)
  | installJellyfinBegin => exact errorWriteOk_statusPreserving _ _ _ (fun e => rfl)
  | installMonitoringPoll ob => exact errorWriteOk_installLoopStepMonitoring t ob
  | installJellyfinPoll ob => exact errorWriteOk_installLoopStepJellyfin t ob
  | installMonitoringFinal fin => exact errorWriteOk_installFinalMonitoring t fin
  | installJellyfinFinal fin => exact errorWriteOk_installFinalJellyfin t fin
  | installError c ex => exact errorWriteOk_setFinal _ _ _ _ _ (fun _ => rfl)
  | installFalse c => exact errorWriteOk_setFinal _ _ _ _ _ (fun _ => rfl)
  | installSimStep c i => exact errorWriteOk_statusPreserving _ _ _ (fun e => rfl)
  | installGenericDone c =>
    exact errorWriteOk_setFinal _ _ _ _ _ (fun hq => absurd hq (by decide))
  | uninstallBegin c => exact errorWriteOk_setFinal _ _ _ _ _ (fun hq => absurd hq (by decide))
  | uninstallDone c => exact errorWriteOk_setFinal _ _ _ _ _ (fun hq => absurd hq (by decide))
  | uninstallError c ex => exact errorWriteOk_setFinal _ _ _ _ _ (fun _ => rfl)
  | uninstallFalse c => exact errorWriteOk_setFinal _ _ _ _ _ (fun _ => rfl)
  | restartBegin c => exact errorWriteOk_setFinal _ _ _ _ _ (fun hq => absurd hq (by decide))
  | restartMonitoringTrigger => exact errorWriteOk_statusPreserving _ _ _ (fun e => rfl)
  | restartMonitoringTriggered => exact errorWriteOk_statusPreserving _ _ _ (fun e => rfl)
  | restartMonitoringPoll uids expected started ob =>
    exact errorWriteOk_restartLoopStepMonitoring uids expected started t ob
  | restartMonitoringFinal expected fin =>
    exact errorWriteOk_restartFinalMonitoring expected t fin
  | restartError c ex => exact errorWriteOk_setFinal _ _ _ _ _ (fun _ => rfl)
  | restartFalse c => exact errorWriteOk_setFinal _ _ _ _ _ (fun _ => rfl)
  | restartSimStep c i => exact errorWriteOk_statusPreserving _ _ _ (fun e => rfl)
  | restartGenericDone c =>
    exact errorWriteOk_setFinal _ _ _ _ _ (fun hq => absurd hq (by decide))

theorem error_write_sets_zero_progress_witness :
    ErrorWriteOk [("monitoring", ⟨"uninstalling", 10, "m", "s", "monitoring"⟩)]
      (setFinal [("monitoring", ⟨"uninstalling", 10, "m", "s", "monitoring"⟩)]
        "monitoring" "error" 0 ("Uninstallation failed: " ++ "boom")) :=
  error_write_sets_zero_progress _ _
    (FineStep.uninstallError [("monitoring", ⟨"uninstalling", 10, "m", "s", "monitoring"⟩)]
      "monitoring" "boom")

end Tharnax
